import Mathlib

/-!
Verification of the WhatsApp automation server (`src/server.js`, second and
latest revision, lines 380-993 of the concatenated file).  The development
shallowly embeds the message-decision pipeline (`client.on('message')`
handler), the AI response generator (`generateAIResponse`), the scheduled
message cron loop, and the `/ai-settings` update route, and proves the
frozen claims about them.

Conventions of the embedding:
* JS strings are Lean `String`s; the character-level work happens on
  `String.data : List Char` (JS `\w`, `toLowerCase`, `includes`, `trim`
  are ASCII here, matching the inputs the program handles).
* JS `Date.now()` values are `Nat` milliseconds.  The rate-limit
  comparison `now - lastResponseTime < 3000` matches JS semantics under
  truncated `Nat` subtraction: when `now < lastResponseTime` JS computes a
  negative number, which is `< 3000`, exactly as `0 < 3000`.
* Fallible transport calls (`getChat`, `getContact`, the OpenAI fetch,
  `client.sendMessage`) are oracles supplied in an environment record;
  `none` models a rejected promise.
* JS objects used as maps (`conversationHistory`, `businessContacts`)
  are association lists keyed by contact id.
-/

namespace WaServer

/-! ### JS string primitives -/

/-- JS `String.prototype.includes`: `pat` occurs contiguously in `hay`. -/
def listIncludes (hay pat : List Char) : Bool :=
  (List.range (hay.length + 1)).any fun i => ((hay.drop i).take pat.length) == pat

def strIncludes (hay pat : String) : Bool :=
  listIncludes hay.data pat.data

/-- JS `String.prototype.toLowerCase` (ASCII). -/
def lowerStr (s : String) : String :=
  String.mk (s.data.map Char.toLower)

/-- Whitespace recognised by `String.prototype.trim` (ASCII fragment). -/
def isWsChar (c : Char) : Bool :=
  c == ' ' || c == '\t' || c == '\n' || c == '\r'

/-- JS `String.prototype.trim`. -/
def jsTrim (s : String) : String :=
  String.mk (((s.data.dropWhile isWsChar).reverse.dropWhile isWsChar).reverse)

/-- JS `str.replace(/[^0-9]/g, '')`. -/
def digitsOnly (s : String) : String :=
  String.mk (s.data.filter Char.isDigit)

/-! ### JS regex word-boundary matching

The business patterns in the handler are all of the form `\b(a|b|...)\b`
with the `i` flag.  `\w` is `[A-Za-z0-9_]`; a `\b` holds between a word
character and a non-word character (string edges count as non-word).
Every literal alternative in the source starts and ends with a word
character, so a literal matches at `i` iff the text (lowercased) carries
the literal at `i`, the character before `i` is absent or non-word, and
the character after the literal is absent or non-word. -/

def isWordChar (c : Char) : Bool :=
  c.isAlpha || c.isDigit || c == '_'

/-- `true` when position `i` is past the end or holds a non-word char. -/
def nonWordAt (l : List Char) (i : Nat) : Bool :=
  match l.get? i with
  | some c => !isWordChar c
  | none => true

def litMatchAt (text pat : List Char) (i : Nat) : Bool :=
  ((text.drop i).take pat.length).map Char.toLower == pat.map Char.toLower
  && (i == 0 || nonWordAt text (i - 1))
  && nonWordAt text (i + pat.length)

/-- Case-insensitive `\b pat \b` occurrence for a literal alternative. -/
def litWordMatch (text pat : List Char) : Bool :=
  (List.range (text.length + 1)).any (litMatchAt text pat)

def anyWordMatch (text : List Char) (pats : List String) : Bool :=
  pats.any fun p => litWordMatch text p.data

/-- The `#\d+` alternative of the transactional pattern: the `\b` before
`#` forces a word character immediately before the `#`, and the `\b`
after the (greedy, hence maximal) digit run forces a non-word character
or the end of the string after it. -/
def hashNumAt (text : List Char) (i : Nat) : Bool :=
  text.get? i == some '#'
  && (match i with
      | 0 => false
      | j + 1 => !nonWordAt text j)
  && (let ds := (text.drop (i + 1)).takeWhile Char.isDigit
      decide (1 ≤ ds.length) && nonWordAt text (i + 1 + ds.length))

def hashNumMatch (text : List Char) : Bool :=
  (List.range text.length).any (hashNumAt text)

/-- The `\d{4,6}` alternative: a maximal digit run of length 4..6 whose
two ends sit at word boundaries. -/
def digitRunAt (text : List Char) (i : Nat) : Bool :=
  (i == 0 || nonWordAt text (i - 1))
  && (let ds := (text.drop i).takeWhile Char.isDigit
      decide (4 ≤ ds.length) && decide (ds.length ≤ 6) && nonWordAt text (i + ds.length))

def digitRun46 (text : List Char) : Bool :=
  (List.range text.length).any (digitRunAt text)

/-! ### Business pattern detection (handler lines 554-578) -/

def automatedWords : List String :=
  ["do not reply", "automated", "no-reply", "noreply", "this is an automated", "bot"]

def transactionalWords : List String :=
  ["order", "invoice", "receipt", "tracking", "OTP", "verification code", "transaction", "payment"]

def deliveryWords : List String :=
  ["delivered", "out for delivery", "dispatched", "courier", "shipment", "parcel"]

def notificationWords : List String :=
  ["booking confirmed", "appointment", "reminder", "alert", "notification"]

def marketingWords : List String :=
  ["offer", "discount", "sale", "promo", "coupon", "limited time", "shop now"]

def automatedMatch (t : List Char) : Bool := anyWordMatch t automatedWords

def transactionalMatch (t : List Char) : Bool :=
  anyWordMatch t transactionalWords || hashNumMatch t || digitRun46 t

def deliveryMatch (t : List Char) : Bool := anyWordMatch t deliveryWords

def notificationMatch (t : List Char) : Bool := anyWordMatch t notificationWords

def marketingMatch (t : List Char) : Bool := anyWordMatch t marketingWords

/-- `/https?:\/\//` (case-sensitive, no `i` flag in the source). -/
def urlMatch (t : List Char) : Bool :=
  listIncludes t "http://".data || listIncludes t "https://".data

/-- `/^\d{4,8}$/` on the (already trimmed) text. -/
def otpWholeMatch (t : List Char) : Bool :=
  t.all Char.isDigit && decide (4 ≤ t.length) && decide (t.length ≤ 8)

/-- `detectionScore` accumulation over the pattern table: each matching
category adds 20, a URL adds 15, an OTP-like whole-string numeric code
adds 25 (handler lines 562-578). -/
def detectionScore (text : String) : Nat :=
  let t := text.data
  (if automatedMatch t then 20 else 0)
  + (if transactionalMatch t then 20 else 0)
  + (if deliveryMatch t then 20 else 0)
  + (if notificationMatch t then 20 else 0)
  + (if marketingMatch t then 20 else 0)
  + (if urlMatch t then 15 else 0)
  + (if otpWholeMatch t then 25 else 0)

/-- Emergency keyword scan of `generateAIResponse` (line 702-703): the
lowercased text is searched for each keyword verbatim, so the uppercase
keyword `"SOS"` can never match -- kept verbatim from the source. -/
def emergencyKeywords : List String :=
  ["emergency", "urgent", "help", "critical", "immediately", "asap",
   "zaruri", "turant", "jaldi", "please help", "SOS", "crisis"]

def isEmergencyText (text : String) : Bool :=
  emergencyKeywords.any fun k => strIncludes (lowerStr text) k

/-! ### Data model -/

/-- An auto-reply rule (`autoReplies` entries). -/
structure AutoRule where
  trigger : String
  response : String
deriving DecidableEq, Repr

/-- `aiSettings` (line 438). -/
structure AISettings where
  enabled : Bool
  apiKey : String
  emergencyNumber : String
  userName : String
deriving DecidableEq, Repr

/-- One entry of `history.messages`. -/
structure ConvMessage where
  role : String
  content : String
  timestamp : Nat
deriving DecidableEq, Repr

/-- A `conversationHistory[contact]` record (lines 664-671). -/
structure ConvRecord where
  messages : List ConvMessage
  hasIntroduced : Bool
  messageCount : Nat
  firstMessageTime : Nat
  lastResponseTime : Nat
deriving DecidableEq, Repr

/-- A `businessContacts[contact]` record (lines 542-549). -/
structure BusinessRecord where
  isBusiness : Bool
  isVerified : Bool
  responseCount : Nat
  detectionConfidence : Nat
deriving DecidableEq, Repr

/-- The record created lazily for an unseen contact (lines 543-548). -/
def initBusinessRecord : BusinessRecord :=
  { isBusiness := false, isVerified := false, responseCount := 0, detectionConfidence := 0 }

/-- The record created lazily inside `generateAIResponse` (lines 664-671);
`firstMessageTime` is the `Date.now()` of the creating call. -/
def initConvRecord (now : Nat) : ConvRecord :=
  { messages := [], hasIntroduced := false, messageCount := 0,
    firstMessageTime := now, lastResponseTime := 0 }

/-- JS objects used as string-keyed maps, as association lists. -/
abbrev AssocMap (β : Type) := List (String × β)

def lookupKey {β : Type} : AssocMap β → String → Option β
  | [], _ => none
  | (k, v) :: rest, k' => if k = k' then some v else lookupKey rest k'

def setKey {β : Type} : AssocMap β → String → β → AssocMap β
  | [], k, v => [(k, v)]
  | (k', v') :: rest, k, v =>
    if k' = k then (k, v) :: rest else (k', v') :: setKey rest k v

/-- The mutable top-level server state touched by the message handler. -/
structure ServerState where
  autoReplies : List AutoRule
  aiSettings : AISettings
  conversationHistory : AssocMap ConvRecord
  businessContacts : AssocMap BusinessRecord
deriving DecidableEq, Repr

/-! ### Transport / environment oracles -/

/-- Result of `message.getChat()`. -/
structure ChatMeta where
  isGroup : Bool
deriving DecidableEq, Repr

/-- Result of `message.getContact()`. -/
structure ContactMeta where
  isBusiness : Bool
  isEnterprise : Bool
deriving DecidableEq, Repr

/-- One inbound `message`; `sender` embeds `message.from`. -/
structure InboundMsg where
  fromMe : Bool
  body : String
  sender : String
deriving DecidableEq, Repr

/-- External outcomes observed while one message is processed.  `none`
for `chatMeta`/`contactMeta` models a rejected `getChat`/`getContact`
promise; `completion` is the OpenAI call outcome (`none` = network
error, timeout, or non-2xx status); `now` stands for the `Date.now()`
reads of the call; `contactName`/`timeString` are the resolved
`getContactName` value and the locale-formatted timestamp used only
inside the emergency alert text. -/
structure MsgEnv where
  whatsappReady : Bool
  chatMeta : Option ChatMeta
  contactMeta : Option ContactMeta
  completion : Option String
  now : Nat
  contactName : String
  timeString : String
deriving DecidableEq, Repr

/-! ### generateAIResponse (lines 662-787) -/

/-- `history.messages.push(m)` followed by the `length > 6` trim to
`slice(-6)` (lines 685-694). -/
def pushTrim (msgs : List ConvMessage) (m : ConvMessage) : List ConvMessage :=
  let l := msgs ++ [m]
  if 6 < l.length then l.drop (l.length - 6) else l

/-- The emergency alert template of lines 770-771. -/
def emergencyAlertText (contactName contact messageText timeString : String) : String :=
  "🚨 EMERGENCY ALERT 🚨\n\nFrom: " ++ contactName ++ "\nNumber: " ++ contact
    ++ "\nMessage: \"" ++ messageText ++ "\"\n\nTime: " ++ timeString
    ++ "\n\n⚠️ AI PA has responded. Please check IMMEDIATELY."

/-- Observable outcome of one `generateAIResponse` call: the updated
`conversationHistory`, the returned value (`none` both for the
rate-limit `return null` and, via `threw`, for a propagated API error),
the messages pushed to the transport (the emergency alert), and whether
the OpenAI endpoint was actually called. -/
structure GenResult where
  history : AssocMap ConvRecord
  reply : Option String
  sends : List (String × String)
  apiCalled : Bool
  threw : Bool
deriving DecidableEq, Repr

/-- Shallow embedding of `generateAIResponse` (lines 662-787).  The
system-prompt construction (language register, persona text) only feeds
the external completion call, whose outcome the `env.completion` oracle
already supplies, so the prompt string itself is not materialised. -/
def generateAIResponse (settings : AISettings) (hist0 : AssocMap ConvRecord)
    (contact text : String) (env : MsgEnv) : GenResult :=
  let r0 := (lookupKey hist0 contact).getD (initConvRecord env.now)
  let r1 := { r0 with messageCount := r0.messageCount + 1 }
  if env.now - r1.lastResponseTime < 3000 ∧ 1 < r1.messageCount then
    { history := setKey hist0 contact r1, reply := none, sends := [],
      apiCalled := false, threw := false }
  else
    let r2 := { r1 with
      messages := pushTrim r1.messages { role := "user", content := text, timestamp := env.now } }
    match env.completion with
    | none =>
      { history := setKey hist0 contact r2, reply := none, sends := [],
        apiCalled := true, threw := true }
    | some raw =>
      let aiReply := jsTrim raw
      let r3 := { r2 with
        messages := r2.messages ++ [{ role := "assistant", content := aiReply, timestamp := env.now }],
        hasIntroduced := true,
        lastResponseTime := env.now }
      let sends :=
        if isEmergencyText text ∧ settings.emergencyNumber ≠ "" then
          [(digitsOnly settings.emergencyNumber ++ "@c.us",
            emergencyAlertText env.contactName contact text env.timeString)]
        else []
      { history := setKey hist0 contact r3, reply := some aiReply, sends := sends,
        apiCalled := true, threw := false }

/-! ### The message handler (lines 518-620) -/

/-- The `try { getContact } catch { continue }` business check of lines
531-539: a failed lookup is caught and does not block. -/
def earlyBusinessOf (env : MsgEnv) : Bool :=
  match env.contactMeta with
  | some c => c.isBusiness || c.isEnterprise
  | none => false

/-- The business-status update of lines 581-585. -/
def scoredUpdate (b0 : BusinessRecord) (score : Nat) : BusinessRecord :=
  if 20 ≤ score then
    { b0 with isBusiness := true,
              detectionConfidence := min 100 (b0.detectionConfidence + score) }
  else b0

/-- The keyword loop of lines 593-601: first rule whose lowercased
trigger is a substring of the lowercased text. -/
def firstRuleMatch (rules : List AutoRule) (text : String) : Option AutoRule :=
  rules.find? fun r => strIncludes (lowerStr text) (lowerStr r.trigger)

/-- Observable outcome of the `client.on('message')` handler for one
inbound message: the new server state, all outbound sends in order
(destination, text) -- `message.reply` is a send to the sender -- whether
the OpenAI endpoint was called, and whether the async handler finished
with an uncaught rejection. -/
structure Outcome where
  state : ServerState
  sends : List (String × String)
  apiCalled : Bool
  threw : Bool
deriving DecidableEq, Repr

/-- Shallow embedding of the handler (lines 518-620).  `getChat` is not
wrapped in a `try`, so a rejected `chatMeta` aborts the handler with an
uncaught rejection before any state change or send. -/
def processMessage (st : ServerState) (msg : InboundMsg) (env : MsgEnv) : Outcome :=
  if msg.fromMe || !env.whatsappReady then
    { state := st, sends := [], apiCalled := false, threw := false }
  else
    match env.chatMeta with
    | none => { state := st, sends := [], apiCalled := false, threw := true }
    | some chat =>
      if chat.isGroup then
        { state := st, sends := [], apiCalled := false, threw := false }
      else
        let incomingText := jsTrim msg.body
        let contact := msg.sender
        if earlyBusinessOf env then
          { state := st, sends := [], apiCalled := false, threw := false }
        else
          let b0 := (lookupKey st.businessContacts contact).getD initBusinessRecord
          let b1 := scoredUpdate b0 (detectionScore incomingText)
          let st1 := { st with businessContacts := setKey st.businessContacts contact b1 }
          if b1.isBusiness then
            { state := st1, sends := [], apiCalled := false, threw := false }
          else
            match firstRuleMatch st1.autoReplies incomingText with
            | some rule =>
              { state := st1, sends := [(contact, rule.response)],
                apiCalled := false, threw := false }
            | none =>
              if st1.aiSettings.enabled ∧ st1.aiSettings.apiKey ≠ "" then
                let g := generateAIResponse st1.aiSettings st1.conversationHistory
                           contact incomingText env
                let st2 := { st1 with conversationHistory := g.history }
                match g.reply with
                | some r =>
                  { state := st2, sends := g.sends ++ [(contact, r)],
                    apiCalled := g.apiCalled, threw := false }
                | none =>
                  { state := st2, sends := g.sends, apiCalled := g.apiCalled,
                    threw := false }
              else
                { state := st1, sends := [], apiCalled := false, threw := false }

/-- Sequential processing of several inbound messages. -/
def processTrace (st : ServerState) : List (InboundMsg × MsgEnv) → ServerState
  | [] => st
  | (m, e) :: rest => processTrace (processMessage st m e).state rest

/-! ### Scheduled messages cron (lines 948-970) -/

structure SchedMsg where
  phone : String
  message : String
  datetime : Nat
  status : String
deriving DecidableEq, Repr

/-- Destination normalisation of line 959. -/
def normalizePhone (p : String) : String :=
  digitsOnly p ++ "@c.us"

/-- The guard of line 957: due and still pending. -/
def duePending (now : Nat) (m : SchedMsg) : Bool :=
  decide (m.datetime ≤ now) && decide (m.status = "pending")

/-- One iteration body of the cron loop at index `i`: attempt the send
for a due pending entry, `splice` it out on success, mark it `failed`
on error.  Also reports the attempted send. -/
def processIdx (send : String → String → Bool) (now : Nat)
    (msgs : List SchedMsg) (i : Nat) : List SchedMsg × List (String × String) :=
  match msgs.get? i with
  | none => (msgs, [])
  | some m =>
    if duePending now m then
      let dest := normalizePhone m.phone
      if send dest m.message then (msgs.eraseIdx i, [(dest, m.message)])
      else (msgs.set i { m with status := "failed" }, [(dest, m.message)])
    else (msgs, [])

/-- The reverse-index `for` loop (lines 953-969): `cronLoop send now n l`
processes indices `n-1, n-2, ..., 0` of the evolving list. -/
def cronLoop (send : String → String → Bool) (now : Nat) :
    Nat → List SchedMsg → List SchedMsg × List (String × String)
  | 0, msgs => (msgs, [])
  | i + 1, msgs =>
    let p := processIdx send now msgs i
    let rest := cronLoop send now i p.1
    (rest.1, p.2 ++ rest.2)

/-- One tick of the `setInterval` dispatcher: no-op while disconnected,
otherwise the reverse-index scan over the whole queue. -/
def cronTick (ready : Bool) (send : String → String → Bool) (now : Nat)
    (msgs : List SchedMsg) : List SchedMsg × List (String × String) :=
  if ready then cronLoop send now msgs.length msgs else (msgs, [])

/-! ### The /ai-settings POST route (lines 923-936) -/

/-- Request body of `POST /ai-settings`; `apiKey = none` models an
absent field (JS `undefined`). -/
structure AiSettingsBody where
  enabled : Bool
  apiKey : Option String
  emergencyNumber : String
  userName : String
deriving DecidableEq, Repr

/-- The route handler: the stored key survives when the body's key is
falsy (absent or empty) or the masked placeholder. -/
def postAiSettings (old : AISettings) (body : AiSettingsBody) : AISettings :=
  let key :=
    match body.apiKey with
    | none => old.apiKey
    | some k => if k = "" ∨ k = "***hidden***" then old.apiKey else k
  { enabled := body.enabled, apiKey := key,
    emergencyNumber := body.emergencyNumber, userName := body.userName }

/-! ### Association map lemmas -/

theorem lookupKey_setKey_self {β : Type} (m : AssocMap β) (k : String) (v : β) :
    lookupKey (setKey m k v) k = some v := by
  induction m with
  | nil => simp [setKey, lookupKey]
  | cons p rest ih =>
    obtain ⟨k'', v''⟩ := p
    by_cases hk : k'' = k <;> simp [setKey, lookupKey, hk, ih]

theorem lookupKey_setKey_ne {β : Type} (m : AssocMap β) (k k' : String) (v : β)
    (h : k ≠ k') : lookupKey (setKey m k v) k' = lookupKey m k' := by
  induction m with
  | nil => simp [setKey, lookupKey, h]
  | cons p rest ih =>
    obtain ⟨k'', v''⟩ := p
    by_cases hk : k'' = k
    · subst hk; simp [setKey, lookupKey, h]
    · simp [setKey, lookupKey, hk, ih]

/-! ### scoredUpdate lemmas -/

theorem scoredUpdate_isBusiness_of_true (b0 : BusinessRecord) (s : Nat)
    (h : b0.isBusiness = true) : (scoredUpdate b0 s).isBusiness = true := by
  unfold scoredUpdate; split <;> simp [h]

theorem scoredUpdate_of_lt (b0 : BusinessRecord) (s : Nat) (h : s < 20) :
    scoredUpdate b0 s = b0 := by
  unfold scoredUpdate; rw [if_neg (by omega)]

theorem scoredUpdate_conf_mono (b0 : BusinessRecord) (s : Nat)
    (h : b0.detectionConfidence ≤ 100) :
    b0.detectionConfidence ≤ (scoredUpdate b0 s).detectionConfidence := by
  unfold scoredUpdate; split
  · exact le_min h (Nat.le_add_right _ _)
  · exact le_refl _

theorem scoredUpdate_conf_le (b0 : BusinessRecord) (s : Nat)
    (h : b0.detectionConfidence ≤ 100) :
    (scoredUpdate b0 s).detectionConfidence ≤ 100 := by
  unfold scoredUpdate; split
  · simp
  · exact h

/-! ### Claim theorems -/

/-- Claim C1: a contact whose stored business record has `isBusiness = true`
never receives any outbound message from the handler: the flagged-business
short-circuit (line 588) fires before the keyword-rule loop and the AI
path, for every rule set, every AI settings value and every transport
outcome. -/
theorem business_contact_never_replied (st : ServerState) (msg : InboundMsg)
    (env : MsgEnv) (r0 : BusinessRecord)
    (h : lookupKey st.businessContacts msg.sender = some r0)
    (hb : r0.isBusiness = true) :
    (processMessage st msg env).sends = [] ∧
    (processMessage st msg env).apiCalled = false := by
  unfold processMessage
  split
  · exact ⟨rfl, rfl⟩
  cases hc : env.chatMeta with
  | none => simp
  | some chat =>
    simp only
    split
    · exact ⟨rfl, rfl⟩
    split
    · exact ⟨rfl, rfl⟩
    rw [h]
    simp only [Option.getD_some]
    rw [if_pos (scoredUpdate_isBusiness_of_true r0 _ hb)]
    exact ⟨rfl, rfl⟩

/-- Witness for C1: a flagged contact with a matching keyword rule and AI
fully enabled still gets silence. -/
theorem business_contact_never_replied_case :
    (processMessage
      { autoReplies := [⟨"hi", "Hey!"⟩], aiSettings := ⟨true, "k", "", ""⟩,
        conversationHistory := [], businessContacts := [("c", ⟨true, false, 0, 50⟩)] }
      ⟨false, "hi", "c"⟩
      ⟨true, some ⟨false⟩, some ⟨false, false⟩, some "ok", 0, "n", "t"⟩).sends = [] ∧
    (processMessage
      { autoReplies := [⟨"hi", "Hey!"⟩], aiSettings := ⟨true, "k", "", ""⟩,
        conversationHistory := [], businessContacts := [("c", ⟨true, false, 0, 50⟩)] }
      ⟨false, "hi", "c"⟩
      ⟨true, some ⟨false⟩, some ⟨false, false⟩, some "ok", 0, "n", "t"⟩).apiCalled = false :=
  business_contact_never_replied _ _ _ ⟨true, false, 0, 50⟩ (by decide) rfl

/-- Claim C3: a message from a group chat is discarded silently -- no
outbound send of any kind, no state change, no AI call (handler lines
521-525). -/
theorem group_message_no_send (st : ServerState) (msg : InboundMsg)
    (ready : Bool) (cMeta : Option ContactMeta) (comp : Option String)
    (now : Nat) (cn ts : String) :
    (processMessage st msg ⟨ready, some ⟨true⟩, cMeta, comp, now, cn, ts⟩).sends = [] ∧
    (processMessage st msg ⟨ready, some ⟨true⟩, cMeta, comp, now, cn, ts⟩).state = st ∧
    (processMessage st msg ⟨ready, some ⟨true⟩, cMeta, comp, now, cn, ts⟩).apiCalled = false := by
  unfold processMessage
  split
  · exact ⟨rfl, rfl, rfl⟩
  · exact ⟨rfl, rfl, rfl⟩

/-- Claim C4: once `messageCount` exceeds 1, a `generateAIResponse` call
within 3000 ms of the contact's `lastResponseTime` returns `null` before
any API call or send (lines 676-681); the router's `if (aiResponse)`
guard then sends nothing for that message. -/
theorem rate_limited_returns_null (settings : AISettings)
    (hist0 : AssocMap ConvRecord) (contact text : String) (env : MsgEnv)
    (r0 : ConvRecord) (h : lookupKey hist0 contact = some r0)
    (hm : 1 < r0.messageCount) (ht : env.now - r0.lastResponseTime < 3000) :
    (generateAIResponse settings hist0 contact text env).reply = none ∧
    (generateAIResponse settings hist0 contact text env).sends = [] ∧
    (generateAIResponse settings hist0 contact text env).apiCalled = false := by
  unfold generateAIResponse
  rw [h]
  simp only [Option.getD_some]
  rw [if_pos ⟨ht, by omega⟩]
  exact ⟨rfl, rfl, rfl⟩

/-- Witness for C4: third message 1 s after a reply is rate-limited. -/
theorem rate_limited_returns_null_case :
    (generateAIResponse ⟨true, "k", "", ""⟩ [("c", ⟨[], false, 2, 0, 1000⟩)]
      "c" "hey" ⟨true, some ⟨false⟩, some ⟨false, false⟩, some "ok", 2000, "n", "t"⟩).reply = none ∧
    (generateAIResponse ⟨true, "k", "", ""⟩ [("c", ⟨[], false, 2, 0, 1000⟩)]
      "c" "hey" ⟨true, some ⟨false⟩, some ⟨false, false⟩, some "ok", 2000, "n", "t"⟩).sends = [] ∧
    (generateAIResponse ⟨true, "k", "", ""⟩ [("c", ⟨[], false, 2, 0, 1000⟩)]
      "c" "hey" ⟨true, some ⟨false⟩, some ⟨false, false⟩, some "ok", 2000, "n", "t"⟩).apiCalled = false :=
  rate_limited_returns_null _ _ _ _ _ ⟨[], false, 2, 0, 1000⟩ (by decide)
    (by decide) (by decide)

/-- Claim C10: `POST /ai-settings` keeps the previously stored `apiKey`
whenever the body's `apiKey` is absent, empty, or the masked placeholder,
while `enabled`, `emergencyNumber` and `userName` come from the body
(lines 923-936). -/
theorem ai_settings_preserve_api_key (old : AISettings) (body : AiSettingsBody)
    (h : body.apiKey = none ∨ body.apiKey = some "" ∨ body.apiKey = some "***hidden***") :
    postAiSettings old body =
      { enabled := body.enabled, apiKey := old.apiKey,
        emergencyNumber := body.emergencyNumber, userName := body.userName } := by
  rcases h with h | h | h <;> simp [postAiSettings, h]

/-- Witness for C10 at the masked placeholder. -/
theorem ai_settings_preserve_api_key_case :
    postAiSettings ⟨false, "secret", "91", "Boss"⟩ ⟨true, some "***hidden***", "92", "B2"⟩
      = ⟨true, "secret", "92", "B2"⟩ :=
  ai_settings_preserve_api_key ⟨false, "secret", "91", "Boss"⟩
    ⟨true, some "***hidden***", "92", "B2"⟩ (Or.inr (Or.inr rfl))

/-- Counterexample to claim C2 as stated: the text `"your order"` makes
the first rule (trigger `"order"`) match, yet the same word scores 20 on
the transactional business pattern, so the handler flags the contact and
returns before the rule loop -- no reply is sent. -/
theorem rule_match_blocked_by_business_filter :
    firstRuleMatch [⟨"order", "Thanks!"⟩] (jsTrim "your order")
      = some ⟨"order", "Thanks!"⟩ ∧
    (processMessage
      { autoReplies := [⟨"order", "Thanks!"⟩], aiSettings := ⟨true, "k", "", ""⟩,
        conversationHistory := [], businessContacts := [] }
      ⟨false, "your order", "c"⟩
      ⟨true, some ⟨false⟩, some ⟨false, false⟩, some "ok", 0, "n", "t"⟩).sends = [] := by
  constructor
  · decide
  · decide

/-- Claim C2 (amended): for every inbound message on which the handler
reaches the keyword-rule stage -- not self-authored, transport ready, not
a group chat, transport contact lookup not flagging business, contact not
locally flagged and the heuristic score below 20 -- the first matching
rule's response is the only send, no AI call happens, and the
conversation history is untouched (lines 593-601). -/
theorem first_rule_match_replies_at_rule_stage (st : ServerState)
    (msg : InboundMsg) (env : MsgEnv) (rule : AutoRule)
    (h1 : msg.fromMe = false) (h2 : env.whatsappReady = true)
    (h3 : env.chatMeta = some ⟨false⟩) (h4 : earlyBusinessOf env = false)
    (h5 : detectionScore (jsTrim msg.body) < 20)
    (h6 : ∀ r, lookupKey st.businessContacts msg.sender = some r → r.isBusiness = false)
    (h7 : firstRuleMatch st.autoReplies (jsTrim msg.body) = some rule) :
    (processMessage st msg env).sends = [(msg.sender, rule.response)] ∧
    (processMessage st msg env).apiCalled = false ∧
    (processMessage st msg env).state.conversationHistory = st.conversationHistory := by
  have hb : ((lookupKey st.businessContacts msg.sender).getD initBusinessRecord).isBusiness = false := by
    cases hlk : lookupKey st.businessContacts msg.sender with
    | none => rfl
    | some r => simpa using h6 r hlk
  unfold processMessage
  split
  · next hcond => rw [h1, h2] at hcond; simp at hcond
  split
  · next heq => rw [h3] at heq; cases heq
  next chat heq =>
    rw [h3] at heq; injection heq with hchat; subst hchat
    split
    · next hg => exact (Bool.false_ne_true hg).elim
    split
    · next he => rw [h4] at he; exact (Bool.false_ne_true he).elim
    dsimp only
    rw [scoredUpdate_of_lt _ _ h5]
    split
    · next hbiz => rw [hb] at hbiz; exact (Bool.false_ne_true hbiz).elim
    split
    · next r heq2 =>
      rw [h7] at heq2
      injection heq2 with hr; subst hr
      exact ⟨rfl, rfl, rfl⟩
    · next heq2 =>
      rw [h7] at heq2
      cases heq2

/-- Witness for the amended C2: a plain greeting matching the first rule
is answered with that rule's response. -/
theorem first_rule_match_replies_case :
    (processMessage
      { autoReplies := [⟨"hi", "Hey!"⟩], aiSettings := ⟨true, "k", "", ""⟩,
        conversationHistory := [], businessContacts := [] }
      ⟨false, "hi there", "c"⟩
      ⟨true, some ⟨false⟩, some ⟨false, false⟩, some "ok", 0, "n", "t"⟩).sends
      = [("c", "Hey!")] ∧
    (processMessage
      { autoReplies := [⟨"hi", "Hey!"⟩], aiSettings := ⟨true, "k", "", ""⟩,
        conversationHistory := [], businessContacts := [] }
      ⟨false, "hi there", "c"⟩
      ⟨true, some ⟨false⟩, some ⟨false, false⟩, some "ok", 0, "n", "t"⟩).apiCalled = false ∧
    (processMessage
      { autoReplies := [⟨"hi", "Hey!"⟩], aiSettings := ⟨true, "k", "", ""⟩,
        conversationHistory := [], businessContacts := [] }
      ⟨false, "hi there", "c"⟩
      ⟨true, some ⟨false⟩, some ⟨false, false⟩, some "ok", 0, "n", "t"⟩).state.conversationHistory
      = [] :=
  first_rule_match_replies_at_rule_stage _ _ _ ⟨"hi", "Hey!"⟩ rfl rfl rfl rfl
    (by decide) (by intro r hr; cases hr) (by decide)

/-- Counterexample to claim C6 as stated: `"see https://x.com"` scores 15
(URL bonus only), yet the stored `detectionConfidence` stays at 0 instead
of growing to 15 -- sub-threshold scores are discarded, not accumulated
(the addition at line 583 happens only inside `if (detectionScore >= 20)`
at line 581). -/
theorem subthreshold_score_not_accumulated :
    detectionScore (jsTrim "see https://x.com") = 15 ∧
    lookupKey (processMessage
      { autoReplies := [], aiSettings := ⟨false, "", "", ""⟩,
        conversationHistory := [], businessContacts := [("c", ⟨false, false, 0, 0⟩)] }
      ⟨false, "see https://x.com", "c"⟩
      ⟨true, some ⟨false⟩, some ⟨false, false⟩, none, 0, "n", "t"⟩).state.businessContacts "c"
      = some ⟨false, false, 0, 0⟩ := by
  constructor
  · decide
  · decide

/-- Claim C6 (amended): for a message that reaches the scoring stage, the
stored business record changes exactly per `scoredUpdate`: when the
message's own score reaches 20 the score is added to
`detectionConfidence` (capped at 100) and `isBusiness` is set; a
sub-threshold score leaves the record unchanged, so confidence does not
accumulate across sub-threshold messages. -/
theorem business_update_threshold_only (st : ServerState) (msg : InboundMsg)
    (env : MsgEnv)
    (h1 : msg.fromMe = false) (h2 : env.whatsappReady = true)
    (h3 : env.chatMeta = some ⟨false⟩) (h4 : earlyBusinessOf env = false) :
    lookupKey (processMessage st msg env).state.businessContacts msg.sender =
      some (scoredUpdate
        ((lookupKey st.businessContacts msg.sender).getD initBusinessRecord)
        (detectionScore (jsTrim msg.body))) := by
  unfold processMessage
  split
  · next hcond => rw [h1, h2] at hcond; simp at hcond
  split
  · next heq => rw [h3] at heq; cases heq
  next chat heq =>
    rw [h3] at heq; injection heq with hchat; subst hchat
    split
    · next hg => exact (Bool.false_ne_true hg).elim
    split
    · next he => rw [h4] at he; exact (Bool.false_ne_true he).elim
    dsimp only
    split
    · exact lookupKey_setKey_self _ _ _
    split
    · exact lookupKey_setKey_self _ _ _
    split
    · split
      · exact lookupKey_setKey_self _ _ _
      · exact lookupKey_setKey_self _ _ _
    · exact lookupKey_setKey_self _ _ _

/-- Witness for the amended C6: `"invoice 1234"` scores exactly 20, so
the record gains that score and the flag. -/
theorem business_update_threshold_only_case :
    lookupKey (processMessage
      { autoReplies := [], aiSettings := ⟨false, "", "", ""⟩,
        conversationHistory := [], businessContacts := [] }
      ⟨false, "invoice 1234", "c"⟩
      ⟨true, some ⟨false⟩, some ⟨false, false⟩, none, 0, "n", "t"⟩).state.businessContacts "c"
      = some (scoredUpdate
          ((lookupKey ([] : AssocMap BusinessRecord) "c").getD initBusinessRecord)
          (detectionScore (jsTrim "invoice 1234"))) :=
  business_update_threshold_only _ _ _ rfl rfl rfl rfl

/-- Counterexample to claim C9 as stated: when `getChat()` rejects, the
handler aborts with an uncaught rejection (line 521 is not inside any
`try`), so a message that a keyword rule would have answered gets no
reply at all -- the failure is not treated as "unknown". -/
theorem chat_lookup_failure_blocks_reply :
    (processMessage
      { autoReplies := [⟨"hi", "Hey!"⟩], aiSettings := ⟨false, "", "", ""⟩,
        conversationHistory := [], businessContacts := [] }
      ⟨false, "hi", "c"⟩ ⟨true, none, some ⟨false, false⟩, none, 0, "n", "t"⟩).sends = [] ∧
    (processMessage
      { autoReplies := [⟨"hi", "Hey!"⟩], aiSettings := ⟨false, "", "", ""⟩,
        conversationHistory := [], businessContacts := [] }
      ⟨false, "hi", "c"⟩ ⟨true, none, some ⟨false, false⟩, none, 0, "n", "t"⟩).threw = true ∧
    (processMessage
      { autoReplies := [⟨"hi", "Hey!"⟩], aiSettings := ⟨false, "", "", ""⟩,
        conversationHistory := [], businessContacts := [] }
      ⟨false, "hi", "c"⟩ ⟨true, some ⟨false⟩, some ⟨false, false⟩, none, 0, "n", "t"⟩).sends
      = [("c", "Hey!")] := by
  refine ⟨?_, ?_, ?_⟩ <;> decide

/-- Claim C9 (amended): a failed `getContact()` lookup is caught and
treated exactly like a non-business contact, so it never blocks the
remaining stages; a failed `getChat()` lookup, by contrast, aborts the
handler -- nothing is sent and the state is unchanged. -/
theorem metadata_failure_handling (st : ServerState) (msg : InboundMsg)
    (ready : Bool) (chatM : Option ChatMeta) (cMeta : Option ContactMeta)
    (comp : Option String) (now : Nat) (cn ts : String) :
    processMessage st msg ⟨ready, chatM, none, comp, now, cn, ts⟩
      = processMessage st msg ⟨ready, chatM, some ⟨false, false⟩, comp, now, cn, ts⟩ ∧
    ((processMessage st msg ⟨ready, none, cMeta, comp, now, cn, ts⟩).sends = [] ∧
     (processMessage st msg ⟨ready, none, cMeta, comp, now, cn, ts⟩).state = st) := by
  refine ⟨rfl, ?_, ?_⟩ <;> (unfold processMessage; split <;> rfl)

/-- The handler leaves the business map alone or applies exactly one
`scoredUpdate` for the sender. -/
theorem processMessage_bc_cases (st : ServerState) (msg : InboundMsg) (env : MsgEnv) :
    (processMessage st msg env).state.businessContacts = st.businessContacts ∨
    (processMessage st msg env).state.businessContacts =
      setKey st.businessContacts msg.sender
        (scoredUpdate ((lookupKey st.businessContacts msg.sender).getD initBusinessRecord)
          (detectionScore (jsTrim msg.body))) := by
  unfold processMessage
  split
  · left; rfl
  split
  · left; rfl
  split
  · left; rfl
  split
  · left; rfl
  dsimp only
  split
  · right; rfl
  split
  · right; rfl
  split
  · split
    · right; rfl
    · right; rfl
  · right; rfl

/-- One handler step preserves the business-record invariant for any
contact: the record survives, its confidence never drops and stays at
most 100, and a set `isBusiness` flag stays set. -/
theorem business_step_invariant (st : ServerState) (msg : InboundMsg)
    (env : MsgEnv) (c : String) (r0 : BusinessRecord)
    (h : lookupKey st.businessContacts c = some r0)
    (hc : r0.detectionConfidence ≤ 100) :
    ∃ r1, lookupKey (processMessage st msg env).state.businessContacts c = some r1 ∧
      r0.detectionConfidence ≤ r1.detectionConfidence ∧
      r1.detectionConfidence ≤ 100 ∧
      (r0.isBusiness = true → r1.isBusiness = true) := by
  rcases processMessage_bc_cases st msg env with hbc | hbc
  · exact ⟨r0, by rw [hbc, h], le_refl _, hc, fun hb => hb⟩
  · by_cases hk : msg.sender = c
    · subst hk
      rw [h] at hbc
      refine ⟨_, by rw [hbc]; exact lookupKey_setKey_self _ _ _, ?_, ?_, ?_⟩
      · exact scoredUpdate_conf_mono r0 _ hc
      · exact scoredUpdate_conf_le r0 _ hc
      · exact scoredUpdate_isBusiness_of_true r0 _
    · exact ⟨r0, by rw [hbc, lookupKey_setKey_ne _ _ _ _ hk, h], le_refl _, hc,
        fun hb => hb⟩

/-- Claim C7: along any sequence of handler steps, a contact's
`detectionConfidence` is monotonically non-decreasing and capped at 100,
and `isBusiness` is sticky -- once true it is never reset by the message
path, so it transitions false to true at most once. -/
theorem business_flag_and_confidence_invariant
    (trace : List (InboundMsg × MsgEnv)) (st : ServerState) (c : String)
    (r0 : BusinessRecord) (h : lookupKey st.businessContacts c = some r0)
    (hc : r0.detectionConfidence ≤ 100) :
    ∃ r1, lookupKey (processTrace st trace).businessContacts c = some r1 ∧
      r0.detectionConfidence ≤ r1.detectionConfidence ∧
      r1.detectionConfidence ≤ 100 ∧
      (r0.isBusiness = true → r1.isBusiness = true) := by
  induction trace generalizing st r0 with
  | nil => exact ⟨r0, h, le_refl _, hc, fun hb => hb⟩
  | cons p rest ih =>
    obtain ⟨m, e⟩ := p
    obtain ⟨r', h', hmono, hle, hsticky⟩ := business_step_invariant st m e c r0 h hc
    obtain ⟨r1, h1, hmono1, hle1, hsticky1⟩ := ih _ r' h' hle
    exact ⟨r1, h1, le_trans hmono hmono1, hle1, fun hb => hsticky1 (hsticky hb)⟩

/-- Witness for C7: two messages (one scoring 45, one scoring 0) drive a
fresh record monotonically. -/
theorem business_flag_and_confidence_invariant_case :
    ∃ r1, lookupKey (processTrace
      { autoReplies := [], aiSettings := ⟨false, "", "", ""⟩,
        conversationHistory := [], businessContacts := [("c", ⟨false, false, 0, 0⟩)] }
      [(⟨false, "1234", "c"⟩, ⟨true, some ⟨false⟩, some ⟨false, false⟩, none, 0, "n", "t"⟩),
       (⟨false, "hello", "c"⟩, ⟨true, some ⟨false⟩, some ⟨false, false⟩, none, 5000, "n", "t"⟩)]).businessContacts "c"
      = some r1 ∧
      (0 : Nat) ≤ r1.detectionConfidence ∧
      r1.detectionConfidence ≤ 100 ∧
      ((false : Bool) = true → r1.isBusiness = true) :=
  business_flag_and_confidence_invariant _ _ "c" ⟨false, false, 0, 0⟩ (by decide) (by decide)

/-! ### pushTrim lemmas (for C8) -/

theorem pushTrim_length_le (l : List ConvMessage) (m : ConvMessage) :
    (pushTrim l m).length ≤ 6 := by
  unfold pushTrim
  dsimp only
  split
  · next hlen => simp only [List.length_drop]; omega
  · next hlen => simp only [List.length_append, List.length_singleton]
                 simp only [List.length_append, List.length_singleton] at hlen
                 omega

theorem pushTrim_suffix (l : List ConvMessage) (m : ConvMessage) :
    List.IsSuffix (pushTrim l m) (l ++ [m]) := by
  unfold pushTrim
  dsimp only
  split
  · exact List.drop_suffix _ _
  · exact List.suffix_refl _

/-- Counterexample to claim C8 as stated: the assistant-turn append
(lines 757-765) happens after the trim of the user turn, so after four
successful AI exchanges the stored history holds 7 entries while the
configured window is 6. -/
theorem history_window_exceeded_after_assistant_append :
    (lookupKey (processTrace
      { autoReplies := [], aiSettings := ⟨true, "k", "", ""⟩,
        conversationHistory := [], businessContacts := [] }
      [(⟨false, "hello", "c"⟩, ⟨true, some ⟨false⟩, some ⟨false, false⟩, some "ok", 0, "n", "t"⟩),
       (⟨false, "hello", "c"⟩, ⟨true, some ⟨false⟩, some ⟨false, false⟩, some "ok", 10000, "n", "t"⟩),
       (⟨false, "hello", "c"⟩, ⟨true, some ⟨false⟩, some ⟨false, false⟩, some "ok", 20000, "n", "t"⟩),
       (⟨false, "hello", "c"⟩, ⟨true, some ⟨false⟩, some ⟨false, false⟩, some "ok", 30000, "n", "t"⟩)]).conversationHistory
      "c").map (fun r => r.messages.length) = some 7 := by
  decide

/-- Claim C8 (amended): after any `generateAIResponse` call the stored
history length is at most 7 (window 6 plus the untrimmed assistant
turn): the user-turn append trims to the most recent 6 entries, the
assistant turn may make it 7, and eviction is FIFO -- the result is a
suffix of the old messages followed by the at most two new turns. -/
theorem history_bounded_after_call (settings : AISettings)
    (hist0 : AssocMap ConvRecord) (contact text : String) (env : MsgEnv)
    (r0 : ConvRecord) (h : lookupKey hist0 contact = some r0)
    (hl : r0.messages.length ≤ 7) :
    ∃ r1 ts, lookupKey (generateAIResponse settings hist0 contact text env).history contact
        = some r1 ∧
      r1.messages.length ≤ 7 ∧ ts.length ≤ 2 ∧
      List.IsSuffix r1.messages (r0.messages ++ ts) := by
  unfold generateAIResponse
  rw [h]
  simp only [Option.getD_some]
  split
  · exact ⟨_, [], lookupKey_setKey_self _ _ _, by simpa using hl, by simp,
      by simp [List.suffix_refl]⟩
  split
  · refine ⟨_, [⟨"user", text, env.now⟩], lookupKey_setKey_self _ _ _, ?_, by simp, ?_⟩
    · exact le_trans (pushTrim_length_le _ _) (by omega)
    · exact pushTrim_suffix _ _
  · next raw hraw =>
    refine ⟨_, [⟨"user", text, env.now⟩, ⟨"assistant", jsTrim raw, env.now⟩],
      lookupKey_setKey_self _ _ _, ?_, by simp, ?_⟩
    · simpa using Nat.add_le_add_right (pushTrim_length_le r0.messages _) 1
    · obtain ⟨t, ht⟩ := pushTrim_suffix r0.messages ⟨"user", text, env.now⟩
      refine ⟨t, ?_⟩
      show t ++ (pushTrim r0.messages ⟨"user", text, env.now⟩
          ++ [⟨"assistant", jsTrim raw, env.now⟩])
        = r0.messages ++ [⟨"user", text, env.now⟩, ⟨"assistant", jsTrim raw, env.now⟩]
      rw [← List.append_assoc, ht]
      simp

/-- Witness for the amended C8. -/
theorem history_bounded_after_call_case :
    ∃ r1 ts, lookupKey (generateAIResponse ⟨true, "k", "", ""⟩
        [("c", ⟨[⟨"user", "a", 0⟩, ⟨"assistant", "b", 0⟩], true, 1, 0, 0⟩)]
        "c" "hello" ⟨true, some ⟨false⟩, some ⟨false, false⟩, some "ok", 9000, "n", "t"⟩).history "c"
        = some r1 ∧
      r1.messages.length ≤ 7 ∧ ts.length ≤ 2 ∧
      List.IsSuffix r1.messages
        ([⟨"user", "a", 0⟩, ⟨"assistant", "b", 0⟩] ++ ts) :=
  history_bounded_after_call _ _ _ _ _ ⟨[⟨"user", "a", 0⟩, ⟨"assistant", "b", 0⟩], true, 1, 0, 0⟩
    (by decide) (by decide)

/-! ### List index lemmas (for the cron loop) -/

theorem get?_lt_exists {α : Type} (l : List α) (i : Nat) (h : i < l.length) :
    ∃ x, l.get? i = some x := by
  induction l generalizing i with
  | nil => exact absurd h (by simp)
  | cons a t ih =>
    cases i with
    | zero => exact ⟨a, rfl⟩
    | succ j => exact ih j (Nat.lt_of_succ_lt_succ h)

theorem get?_append_lt {α : Type} (l r : List α) (i : Nat) (h : i < l.length) :
    (l ++ r).get? i = l.get? i := by
  induction l generalizing i with
  | nil => exact absurd h (by simp)
  | cons a t ih =>
    cases i with
    | zero => rfl
    | succ j => exact ih j (Nat.lt_of_succ_lt_succ h)

theorem eraseIdx_append_lt {α : Type} (l r : List α) (i : Nat) (h : i < l.length) :
    (l ++ r).eraseIdx i = l.eraseIdx i ++ r := by
  induction l generalizing i with
  | nil => exact absurd h (by simp)
  | cons a t ih =>
    cases i with
    | zero => rfl
    | succ j => exact congrArg (a :: ·) (ih j (Nat.lt_of_succ_lt_succ h))

theorem set_append_lt {α : Type} (l r : List α) (i : Nat) (x : α) (h : i < l.length) :
    (l ++ r).set i x = l.set i x ++ r := by
  induction l generalizing i with
  | nil => exact absurd h (by simp)
  | cons a t ih =>
    cases i with
    | zero => rfl
    | succ j => exact congrArg (a :: ·) (ih j (Nat.lt_of_succ_lt_succ h))

theorem get?_append_len {α : Type} (l : List α) (m : α) :
    (l ++ [m]).get? l.length = some m := by
  induction l with
  | nil => rfl
  | cons a t ih => exact ih

theorem eraseIdx_append_len {α : Type} (l : List α) (m : α) :
    (l ++ [m]).eraseIdx l.length = l := by
  induction l with
  | nil => rfl
  | cons a t ih => exact congrArg (a :: ·) ih

theorem set_append_len {α : Type} (l : List α) (m x : α) :
    (l ++ [m]).set l.length x = l ++ [x] := by
  induction l with
  | nil => rfl
  | cons a t ih => exact congrArg (a :: ·) ih

theorem length_eraseIdx_lt {α : Type} (l : List α) (i : Nat) (h : i < l.length) :
    (l.eraseIdx i).length = l.length - 1 := by
  induction l generalizing i with
  | nil => exact absurd h (by simp)
  | cons a t ih =>
    cases i with
    | zero => rfl
    | succ j =>
      have hj := Nat.lt_of_succ_lt_succ h
      simp only [List.eraseIdx, List.length_cons, ih j hj]
      omega

/-- The loop over indices below `n` only touches the first `n` entries,
so a tail past them rides along unchanged. -/
theorem cronLoop_append (send : String → String → Bool) (now : Nat) :
    ∀ (n : Nat) (l r : List SchedMsg), n ≤ l.length →
      cronLoop send now n (l ++ r)
        = ((cronLoop send now n l).1 ++ r, (cronLoop send now n l).2) := by
  intro n
  induction n with
  | zero => intro l r _; rfl
  | succ i ih =>
    intro l r h
    have hi : i < l.length := h
    obtain ⟨m, hm⟩ := get?_lt_exists l i hi
    simp only [cronLoop, processIdx, get?_append_lt l r i hi, hm]
    by_cases hd : duePending now m = true
    · by_cases hs : send (normalizePhone m.phone) m.message = true
      · simp only [if_pos hd, if_pos hs]
        rw [eraseIdx_append_lt l r i hi,
            ih (l.eraseIdx i) r (by rw [length_eraseIdx_lt l i hi]; omega)]
      · simp only [if_pos hd, if_neg hs]
        rw [set_append_lt l r i _ hi,
            ih (l.set i { m with status := "failed" }) r (by rw [List.length_set]; omega)]
    · simp only [if_neg hd]
      rw [ih l r (le_of_lt hi)]

/-- Modelled from the claim: per-entry outcome of one connected tick --
a due pending entry disappears on a successful send and turns `failed`
on a failed one; all other entries are untouched. -/
def tickEntrySpec (send : String → String → Bool) (now : Nat) (m : SchedMsg) :
    Option SchedMsg :=
  if duePending now m then
    if send (normalizePhone m.phone) m.message then none
    else some { m with status := "failed" }
  else some m

/-- Modelled from the claim: the attempted sends of one connected tick
are exactly the due pending entries, visited in reverse list order. -/
def tickAttemptsSpec (now : Nat) (msgs : List SchedMsg) : List (String × String) :=
  ((msgs.filter (duePending now)).map fun m => (normalizePhone m.phone, m.message)).reverse

/-- The reverse-index splice loop equals the per-entry description. -/
theorem cronLoop_spec (send : String → String → Bool) (now : Nat)
    (l : List SchedMsg) :
    cronLoop send now l.length l
      = (l.filterMap (tickEntrySpec send now), tickAttemptsSpec now l) := by
  induction l using List.reverseRecOn with
  | nil => rfl
  | append_singleton l m ih =>
    have hlen : (l ++ [m]).length = l.length + 1 := by simp
    rw [hlen]
    simp only [cronLoop, processIdx, get?_append_len l m]
    by_cases hd : duePending now m = true
    · by_cases hs : send (normalizePhone m.phone) m.message = true
      · simp only [if_pos hd, if_pos hs]
        rw [eraseIdx_append_len l m, ih]
        simp [tickEntrySpec, tickAttemptsSpec, hd, hs, List.filterMap_append,
          List.filter_append]
      · simp only [if_pos hd, if_neg hs]
        rw [set_append_len l m _,
            cronLoop_append send now l.length l [{ m with status := "failed" }] (le_refl _),
            ih]
        simp [tickEntrySpec, tickAttemptsSpec, hd, hs, List.filterMap_append,
          List.filter_append]
    · simp only [if_neg hd]
      rw [cronLoop_append send now l.length l [m] (le_refl _), ih]
      simp [tickEntrySpec, tickAttemptsSpec, hd, List.filterMap_append,
        List.filter_append]

/-- Claim C5: on one dispatcher tick with the transport connected, every
due pending entry is attempted (in reverse list order); a successful
send removes the entry, a failed send keeps it with status `failed`, and
every future or non-pending entry is left unchanged -- the reverse-index
splice never skips or reprocesses an entry. -/
theorem scheduled_tick_per_entry (send : String → String → Bool) (now : Nat)
    (msgs : List SchedMsg) :
    cronTick true send now msgs
      = (msgs.filterMap (tickEntrySpec send now), tickAttemptsSpec now msgs) := by
  unfold cronTick
  rw [if_pos rfl]
  exact cronLoop_spec send now msgs

end WaServer
